import Mathlib

/-
Verification of the diff-position mapping core of scripts/code_review_agent.py.

The Python code works on strings (sequences of code points); the embedding
models a string as a `List Char` and translates each operation of the source
directly:
  - diff.split('\n')            -> List.splitOn '\n'
  - line.startswith(p)          -> p.data.isPrefixOf line
  - line.split()                -> splitOnP isWhitespace, dropping empty pieces
  - parts[3] guarded by len>=4  -> pattern match on four leading elements
  - re.search(r) with r = plus-digits  -> findPlusNum (first plus followed by
    a digit, taking the maximal ASCII digit run)
  - int(...) of a digit run     -> digitsVal
Python integers are modelled by Int where a value can become negative
(new_file_line, target_line) and by Nat where it cannot (hunk_position).
-/

set_option maxRecDepth 16384

/-- A line of text: a Python string modelled as its list of characters. -/
abbrev Line := List Char

/-- Mutable loop state of _calculate_diff_position: in_target_file,
hunk_position and new_file_line (current_file is only ever read through
in_target_file, so the comparison result is what the state records). -/
structure St where
  inTargetFile : Bool
  hunkPosition : Nat
  newFileLine : Int
deriving Repr, DecidableEq

/-- Value of a run of ASCII digits, as computed by Python int() on the
captured group. -/
def digitsVal (ds : List Char) : Nat :=
  ds.foldl (fun acc c => acc * 10 + (c.toNat - 48)) 0

/-- re.search of a plus sign followed by one or more digits: the first
position holding a plus that is directly followed by a digit wins, and the
captured group is the maximal digit run after that plus. -/
def findPlusNum : List Char → Option Nat
  | [] => none
  | c :: rest =>
    if c = '+' then
      let ds := rest.takeWhile Char.isDigit
      if ds = [] then findPlusNum rest else some (digitsVal ds)
    else findPlusNum rest

/-- Python line.split(): split on whitespace runs, dropping empty pieces. -/
def splitWords (l : Line) : List Line :=
  (List.splitOnP (fun c => c.isWhitespace) l).filter (fun p => p ≠ [])

/-- Path extraction from a line of the form diff --git a/old b/new: take the
fourth whitespace-separated token when at least four exist, stripping a
leading b/ (source lines 524-534). Returns none when the line is not a
diff --git line or has fewer than four tokens. -/
def diffGitPathOf (l : Line) : Option Line :=
  if "diff --git".data.isPrefixOf l then
    match splitWords l with
    | _ :: _ :: _ :: newFilePath :: _ =>
      some (if "b/".data.isPrefixOf newFilePath then newFilePath.drop 2 else newFilePath)
    | _ => none
  else none

/-- One iteration of the scan loop of _calculate_diff_position (source lines
522-568), target-independent: returns the successor state together with the
pair (new_file_line, hunk_position) recorded when the line is counted (the
values both counters hold right after the increment); the loop returns
hunk_position exactly when such a pair carries the target line. -/
def stepE (fp : Line) (s : St) (l : Line) : St × Option (Int × Nat) :=
  if "diff --git".data.isPrefixOf l then
    -- lines 524-539: a new file section; with fewer than 4 tokens nothing
    -- changes, otherwise all three state components are reset
    match diffGitPathOf l with
    | some current_file => (⟨current_file == fp, 0, 0⟩, none)
    | none => (s, none)
  else if "@@".data.isPrefixOf l then
    -- lines 542-549: hunk header; only acted on inside the target file
    if s.inTargetFile then
      let nfl : Int :=
        match findPlusNum l with
        | some n => (n : Int) - 1
        | none => s.newFileLine
      ({ s with newFileLine := nfl, hunkPosition := 0 }, none)
    else (s, none)
  else if s.inTargetFile then
    -- lines 552-568: body line inside the target file
    if "+".data.isPrefixOf l
        || ((" ".data.isPrefixOf l) && decide (1 < l.length)
            && !("---".data.isPrefixOf l) && !("+++".data.isPrefixOf l)) then
      (⟨s.inTargetFile, s.hunkPosition + 1, s.newFileLine + 1⟩,
        some (s.newFileLine + 1, s.hunkPosition + 1))
    else
      -- covers the explicit pass on lines starting with a dash and the
      -- implicit skip of all other lines
      (s, none)
  else (s, none)

/-- The scan loop with its early return: the first counted line whose
new_file_line equals the target line yields its hunk_position. -/
def scanLoop (fp : Line) (targetLine : Int) : St → List Line → Option Nat
  | _, [] => none
  | s, l :: rest =>
    match stepE fp s l with
    | (s', none) => scanLoop fp targetLine s' rest
    | (s', some pr) =>
      if pr.1 = targetLine then some pr.2 else scanLoop fp targetLine s' rest

/-- _calculate_diff_position (source lines 499-577): split the diff on
newlines and scan from the initial state. The Python body is wrapped in a
try/except returning None; every operation of the body is total, which the
embedding reflects by being a total function. -/
def calculate_diff_position (diff : Line) (file_path : Line) (target_line : Int) : Option Nat :=
  scanLoop file_path target_line ⟨false, 0, 0⟩ (List.splitOn '\n' diff)

/-- All (new_file_line, hunk_position) pairs the scan records for the target
file, in order, with no early exit: the target-independent trace of counted
lines. -/
def reachedPairs (fp : Line) : St → List Line → List (Int × Nat)
  | _, [] => []
  | s, l :: rest =>
    match stepE fp s l with
    | (s', none) => reachedPairs fp s' rest
    | (s', some pr) => pr :: reachedPairs fp s' rest

/-- Scenario A of the spec: single hunk, one addition, no deletions. -/
def scenarioA : Line :=
  ("diff --git a/src/app.py b/src/app.py\n@@ -10,3 +10,4 @@\n line10\n+line11_new\n line12\n line13").data

/-- Scenario B of the spec: a deletion between two context lines. -/
def scenarioB : Line :=
  ("diff --git a/a.py b/a.py\n@@ -1,3 +1,2 @@\n keep1\n-removed\n keep2").data

/-- Scenario C of the spec: two hunks in the same file; the second hunk
starts at new-file line 20. -/
def scenarioC : Line :=
  ("diff --git a/f.py b/f.py\n@@ -1,2 +1,2 @@\n a1\n+a2\n@@ -10,2 +20,2 @@\n b1\n+b2").data

/-- A diff carrying the standard per-file metadata lines (index, minus-minus-
minus, plus-plus-plus) ahead of a hunk that starts at new-file line 10. -/
def scenarioMeta : Line :=
  ("diff --git a/a.py b/a.py\nindex 1234567..89abcde 100644\n--- a/a.py\n+++ b/a.py\n@@ -10,2 +10,2 @@\n ctx1\n ctx2").data

/-- sanitize_input (source lines 144-158) at a given maximum length: empty
text stays empty, text is truncated to max_length characters and null bytes
are removed (replacing every occurrence of a one-character pattern with the
empty string is exactly a filter). -/
def sanitize_input (text : Line) (max_length : Nat) : Line :=
  if text = [] then []
  else (text.take max_length).filter (fun c => c ≠ '\x00')

/-- One proposed line comment consumed by post_line_comments, with the
defaults of comment.get already applied: file defaults to the empty string,
line to 1, concern and suggestion to the empty string. -/
structure ProposedComment where
  file : Line
  line : Int
  concern : Line
  suggestion : Line
deriving Repr, DecidableEq

/-- One entry of the comments payload assembled by post_line_comments. -/
structure PayloadEntry where
  path : Line
  pos : Nat
  body : Line
deriving Repr, DecidableEq

/-- Body formatting of post_line_comments (source lines 632-637): the concern
wrapped in double asterisks when non-empty, then the suggestion, separated by
a blank line when both parts are present. -/
def formatBody (concern suggestion : Line) : Line :=
  let body := if concern ≠ [] then ('*' :: '*' :: concern) ++ ['*', '*'] else []
  if suggestion ≠ [] then
    (if body ≠ [] then body ++ ('\n' :: '\n' :: suggestion) else suggestion)
  else body

/-- Processing of a single proposed comment in the loop of post_line_comments
(source lines 616-646), parametrized by the position resolver: skip on empty
sanitized path, clamp the line to at least 1, skip when the resolver returns
none, skip on empty body, otherwise append one payload entry. -/
def processComment (resolve : Line → Int → Option Nat)
    (acc : List PayloadEntry) (c : ProposedComment) : List PayloadEntry :=
  let file_path := sanitize_input c.file 500
  if file_path = [] then acc
  else
    let line_number : Int := max 1 c.line
    match resolve file_path line_number with
    | none => acc
    | some pos =>
      let body := formatBody c.concern c.suggestion
      if body = [] then acc
      else acc ++ [⟨file_path, pos, body⟩]

/-- The comment-assembly loop of post_line_comments over the first ten
proposed comments, parametrized by the position resolver. -/
def build_line_comments_with (resolve : Line → Int → Option Nat)
    (line_comments : List ProposedComment) : List PayloadEntry :=
  (line_comments.take 10).foldl (processComment resolve) []

/-- The pure payload-assembly core of post_line_comments (source lines
615-646): the list of {path, position, body} records built from the diff and
the proposed comments. -/
def post_line_comments_payload (diff : Line) (line_comments : List ProposedComment) :
    List PayloadEntry :=
  build_line_comments_with (calculate_diff_position diff) line_comments

/-- Written from the words of the spec: a proposed comment survives exactly
when its sanitized file path is non-empty, its clamped line resolves to a
position, and its formatted body is non-empty; the surviving comment
contributes the entry made of those three values. -/
def specPayloadEntry (diff : Line) (c : ProposedComment) : Option PayloadEntry :=
  let fp := sanitize_input c.file 500
  if fp = [] then none
  else
    match calculate_diff_position diff fp (max 1 c.line) with
    | none => none
    | some pos =>
      let body := formatBody c.concern c.suggestion
      if body = [] then none else some ⟨fp, pos, body⟩

/-! ### Helper lemmas on the scan state machine -/

theorem data_diff_git :
    "diff --git".data = ['d', 'i', 'f', 'f', ' ', '-', '-', 'g', 'i', 't'] := rfl

theorem data_atat : "@@".data = ['@', '@'] := rfl

theorem data_plus : "+".data = ['+'] := rfl

theorem data_space : " ".data = [' '] := rfl

theorem data_dash : "-".data = ['-'] := rfl

/-- A line starting with a dash is never counted and never changes the state:
it is either the explicit pass branch (inside the target file) or ignored. -/
theorem stepE_dash_skip (fp : Line) (s : St) (l : Line)
    (h : (List.isPrefixOf "-".data l) = true) : stepE fp s l = (s, none) := by
  obtain ⟨t, rfl⟩ : ∃ t, l = '-' :: t := by
    cases l with
    | nil => simp [data_dash] at h
    | cons a t =>
      simp [data_dash, List.isPrefixOf_cons₂] at h
      exact ⟨t, by rw [← h]⟩
  cases hs : s.inTargetFile <;>
    simp [stepE, data_diff_git, data_atat, data_plus, data_space,
      List.isPrefixOf_cons₂, hs]

/-- A hunk header line inside the target file resets the hunk-local position
counter to 0 and is itself never counted. -/
theorem stepE_hunk_reset (fp : Line) (s : St) (l : Line)
    (hs : s.inTargetFile = true) (h : (List.isPrefixOf "@@".data l) = true) :
    (stepE fp s l).1.hunkPosition = 0 ∧ (stepE fp s l).2 = none := by
  obtain ⟨t, rfl⟩ : ∃ t, l = '@' :: '@' :: t := by
    cases l with
    | nil => simp [data_atat] at h
    | cons a t =>
      cases t with
      | nil => simp [data_atat, List.isPrefixOf_cons₂] at h
      | cons b t2 =>
        simp [data_atat, List.isPrefixOf_cons₂] at h
        exact ⟨t2, by rw [← h.1, ← h.2]⟩
  simp [stepE, data_diff_git, data_atat, List.isPrefixOf_cons₂, hs]

/-- A line holding exactly one space (the blank context line of a unified
diff) is never counted and never changes the state: the context branch needs
a space followed by at least one more character. -/
theorem stepE_blank_space (fp : Line) (s : St) : stepE fp s [' '] = (s, none) := by
  cases hs : s.inTargetFile <;>
    simp [stepE, data_diff_git, data_atat, data_plus, data_space,
      List.isPrefixOf_cons₂, hs]

/-- An entirely empty line is never counted and never changes the state. -/
theorem stepE_blank_empty (fp : Line) (s : St) : stepE fp s [] = (s, none) := by
  cases hs : s.inTargetFile <;>
    simp [stepE, data_diff_git, data_atat, data_plus, data_space, hs]

/-- A line the step function skips leaves the scan loop unchanged. -/
theorem scanLoop_skip (fp : Line) (tl : Int) (s : St) (l : Line) (rest : List Line)
    (h : stepE fp s l = (s, none)) :
    scanLoop fp tl s (l :: rest) = scanLoop fp tl s rest := by
  simp [scanLoop, h]

/-- The scan returns None exactly when no counted line of the target file
ever carries the target as its new-file line number. -/
theorem scanLoop_eq_none_iff (fp : Line) (tl : Int) (ls : List Line) :
    ∀ s : St, scanLoop fp tl s ls = none ↔
      ∀ pr ∈ reachedPairs fp s ls, pr.1 ≠ tl := by
  induction ls with
  | nil => intro s; simp [scanLoop, reachedPairs]
  | cons l rest ih =>
    intro s
    rcases h : stepE fp s l with ⟨s', e⟩
    cases e with
    | none => simp [scanLoop, reachedPairs, h, ih s']
    | some pr =>
      by_cases htl : pr.1 = tl
      · simp [scanLoop, reachedPairs, h, htl]
      · simp [scanLoop, reachedPairs, h, htl, ih s']

/-- Outside the target file, a line whose diff --git path is not the target
path keeps the scan outside the target file and is never counted. -/
theorem stepE_keeps_not_target (fp : Line) (s : St) (l : Line)
    (hs : s.inTargetFile = false) (hl : diffGitPathOf l ≠ some fp) :
    (stepE fp s l).2 = none ∧ (stepE fp s l).1.inTargetFile = false := by
  unfold stepE
  by_cases h1 : (List.isPrefixOf "diff --git".data l) = true
  · cases hp : diffGitPathOf l with
    | none => simp [h1, hp, hs]
    | some p =>
      have hpf : (p == fp) = false := by
        rw [beq_eq_false_iff_ne]
        intro he
        exact hl (by rw [hp, he])
      simp [h1, hp, hpf]
  · rw [Bool.not_eq_true] at h1
    by_cases h2 : (List.isPrefixOf "@@".data l) = true
    · simp [h1, h2, hs]
    · rw [Bool.not_eq_true] at h2
      simp [h1, h2, hs]

/-- When no line of the diff opens a diff --git section for the target path,
the scan never enters the target file and counts nothing. -/
theorem reachedPairs_nil_of_absent (fp : Line) (ls : List Line) :
    ∀ s : St, s.inTargetFile = false →
      (∀ l ∈ ls, diffGitPathOf l ≠ some fp) → reachedPairs fp s ls = [] := by
  induction ls with
  | nil => intro s _ _; simp [reachedPairs]
  | cons l rest ih =>
    intro s hs hl
    have h := stepE_keeps_not_target fp s l hs (hl l (List.mem_cons_self l rest))
    rcases he : stepE fp s l with ⟨s', e⟩
    rw [he] at h
    cases e with
    | some pr => simp at h
    | none =>
      rw [reachedPairs, he]
      exact ih s' h.2 (fun l' hl' => hl l' (List.mem_cons_of_mem l hl'))

/-- Processing one proposed comment appends exactly the optional entry the
spec description assigns to it. -/
theorem processComment_eq_append (diff : Line) (acc : List PayloadEntry)
    (c : ProposedComment) :
    processComment (calculate_diff_position diff) acc c
      = acc ++ (specPayloadEntry diff c).toList := by
  simp only [processComment, specPayloadEntry]
  by_cases h1 : sanitize_input c.file 500 = []
  · simp [h1]
  · rcases h2 : calculate_diff_position diff (sanitize_input c.file 500) (max 1 c.line) with
      _ | pos
    · simp [h1, h2]
    · by_cases h3 : formatBody c.concern c.suggestion = []
      · simp [h1, h2, h3]
      · simp [h1, h2, h3]

/-- The comment loop is the filterMap of the per-comment entry function. -/
theorem foldl_processComment (diff : Line) (cs : List ProposedComment) :
    ∀ acc, cs.foldl (processComment (calculate_diff_position diff)) acc
      = acc ++ cs.filterMap (specPayloadEntry diff) := by
  induction cs with
  | nil => intro acc; simp
  | cons c rest ih =>
    intro acc
    rw [List.foldl_cons, processComment_eq_append, ih, List.filterMap_cons]
    cases h : specPayloadEntry diff c with
    | none => simp [h]
    | some e => simp [h]

/-- Two resolvers agreeing on every target line at least 1 process every
proposed comment identically: the loop only consults the resolver at the
clamped line. -/
theorem processComment_congr (r r' : Line → Int → Option Nat)
    (hr : ∀ fp tl, (1 : Int) ≤ tl → r fp tl = r' fp tl)
    (acc : List PayloadEntry) (c : ProposedComment) :
    processComment r acc c = processComment r' acc c := by
  simp only [processComment]
  rw [hr (sanitize_input c.file 500) (max 1 c.line) (le_max_left 1 c.line)]

/-! ### Claim theorems -/

/-- C1: every hunk header line scanned while inside the target file section
resets the hunk-local position counter to 0 before any further counting and
is not itself counted; consequently, in the two-hunk scenario C the target
line of the second hunk resolves to position 1 rather than a continuation of
the count of the first hunk, and the full trace of counted lines restarts its
position component at 1 right after the second header. -/
theorem c1_hunk_counter_reset :
    (∀ (fp : Line) (s : St) (l : Line), s.inTargetFile = true →
        (List.isPrefixOf "@@".data l) = true →
        (stepE fp s l).1.hunkPosition = 0 ∧ (stepE fp s l).2 = none) ∧
    calculate_diff_position scenarioC ("f.py").data 20 = some 1 ∧
    reachedPairs ("f.py").data ⟨false, 0, 0⟩ (List.splitOn '\n' scenarioC)
      = [(1, 1), (2, 2), (20, 1), (21, 2)] :=
  ⟨fun fp s l hs h => stepE_hunk_reset fp s l hs h, by decide, by decide⟩

/-- Witness for C1: a concrete hunk header inside the target file resets the
hunk-local position counter from 5 to 0. -/
theorem c1_hunk_counter_reset_witness :
    (stepE ("f.py").data ⟨true, 5, 7⟩ ("@@ -1,2 +3,2 @@").data).1.hunkPosition = 0 :=
  (c1_hunk_counter_reset.1 ("f.py").data ⟨true, 5, 7⟩ ("@@ -1,2 +3,2 @@").data
    rfl (by decide)).1

/-- C2 (code bug evidence): on the metadata scenario the index line and the
minus-minus-minus line are indeed skipped, but a plus-plus-plus file-header
line inside the target file section is counted as an Addition (both counters
increment), and the resolver returns position 1 at that metadata line for
target line 1 even though the only hunk of the file starts at new-file line
10; under the claim the result would be None. -/
theorem c2_metadata_line_counted :
    calculate_diff_position scenarioMeta ("a.py").data 1 = some 1 ∧
    stepE ("a.py").data ⟨true, 0, 0⟩ ("+++ b/a.py").data
      = (⟨true, 1, 1⟩, some (1, 1)) ∧
    stepE ("a.py").data ⟨true, 0, 0⟩ ("--- a/a.py").data = (⟨true, 0, 0⟩, none) ∧
    stepE ("a.py").data ⟨true, 0, 0⟩ ("index 1234567..89abcde 100644").data
      = (⟨true, 0, 0⟩, none) :=
  ⟨by decide, by decide, by decide, by decide⟩

/-- C3: on the scenario A diff the resolver maps new-file lines 10, 11 and 12
of src/app.py to positions 1, 2 and 3. -/
theorem c3_scenario_a :
    calculate_diff_position scenarioA ("src/app.py").data 10 = some 1 ∧
    calculate_diff_position scenarioA ("src/app.py").data 11 = some 2 ∧
    calculate_diff_position scenarioA ("src/app.py").data 12 = some 3 :=
  ⟨by decide, by decide, by decide⟩

/-- C4: every line beginning with a dash leaves the scan state unchanged and
is never counted (neither counter increments), and on the scenario B diff the
resolver maps line 1 to position 1, line 2 to position 2, and line 3 to
None. -/
theorem c4_deletion_lines :
    (∀ (fp : Line) (s : St) (l : Line), (List.isPrefixOf "-".data l) = true →
        stepE fp s l = (s, none)) ∧
    calculate_diff_position scenarioB ("a.py").data 1 = some 1 ∧
    calculate_diff_position scenarioB ("a.py").data 2 = some 2 ∧
    calculate_diff_position scenarioB ("a.py").data 3 = none :=
  ⟨stepE_dash_skip, by decide, by decide, by decide⟩

/-- Witness for C4: a concrete deletion line is skipped without touching the
counters. -/
theorem c4_deletion_lines_witness :
    stepE ("a.py").data ⟨true, 2, 5⟩ ("-removed").data = (⟨true, 2, 5⟩, none) :=
  c4_deletion_lines.1 ("a.py").data ⟨true, 2, 5⟩ ("-removed").data (by decide)

/-- C5: the resolver returns None exactly when no counted line of the target
file carries the target as its new-file line number, and in particular it
returns None at every target line for a file path not named by any diff --git
header of the diff. -/
theorem c5_notfound :
    (∀ (diff fp : Line) (tl : Int),
        calculate_diff_position diff fp tl = none ↔
          ∀ pr ∈ reachedPairs fp ⟨false, 0, 0⟩ (List.splitOn '\n' diff),
            pr.1 ≠ tl) ∧
    ∀ (diff fp : Line) (tl : Int),
      (∀ l ∈ List.splitOn '\n' diff, diffGitPathOf l ≠ some fp) →
      calculate_diff_position diff fp tl = none := by
  constructor
  · intro diff fp tl
    unfold calculate_diff_position
    exact scanLoop_eq_none_iff fp tl (List.splitOn '\n' diff) ⟨false, 0, 0⟩
  · intro diff fp tl h
    unfold calculate_diff_position
    rw [scanLoop_eq_none_iff fp tl (List.splitOn '\n' diff) ⟨false, 0, 0⟩,
      reachedPairs_nil_of_absent fp (List.splitOn '\n' diff) ⟨false, 0, 0⟩ rfl h]
    simp

/-- Witness for C5: the scenario D lookup of a file absent from the diff
returns None. -/
theorem c5_notfound_witness :
    calculate_diff_position scenarioA ("nonexistent.py").data 5 = none :=
  c5_notfound.2 scenarioA ("nonexistent.py").data 5 (by decide)

/-- C6: for every diff text, file path and target line the resolver
terminates with either None or an integer position; it is a total function of
its inputs. -/
theorem c6_total :
    ∀ (diff fp : Line) (tl : Int),
      calculate_diff_position diff fp tl = none ∨
        ∃ n, calculate_diff_position diff fp tl = some n := by
  intro diff fp tl
  cases h : calculate_diff_position diff fp tl with
  | none => exact Or.inl rfl
  | some n => exact Or.inr ⟨n, rfl⟩

/-- C7: a line holding exactly one space, or an entirely empty line, is never
counted: the step function leaves the state untouched on it, and the scan of
any list of lines behaves as if the line were absent. -/
theorem c7_blank_context :
    ∀ (fp : Line) (tl : Int) (s : St) (rest : List Line),
      stepE fp s [' '] = (s, none) ∧ stepE fp s [] = (s, none) ∧
      scanLoop fp tl s ([' '] :: rest) = scanLoop fp tl s rest ∧
      scanLoop fp tl s ([] :: rest) = scanLoop fp tl s rest := by
  intro fp tl s rest
  refine ⟨stepE_blank_space fp s, stepE_blank_empty fp s, ?_, ?_⟩
  · exact scanLoop_skip fp tl s [' '] rest (stepE_blank_space fp s)
  · exact scanLoop_skip fp tl s [] rest (stepE_blank_empty fp s)

/-- C8: the payload built by post_line_comments is exactly the filterMap over
the first ten proposed comments of the per-comment entry function that keeps a
comment only when its sanitized path is non-empty, its clamped line resolves
to a position, and its formatted body is non-empty; in particular at most ten
entries are ever emitted. -/
theorem c8_payload_characterization :
    ∀ (diff : Line) (cs : List ProposedComment),
      post_line_comments_payload diff cs
        = (cs.take 10).filterMap (specPayloadEntry diff) ∧
      (post_line_comments_payload diff cs).length ≤ 10 := by
  intro diff cs
  have h : post_line_comments_payload diff cs
      = (cs.take 10).filterMap (specPayloadEntry diff) := by
    unfold post_line_comments_payload build_line_comments_with
    simpa using foldl_processComment diff (cs.take 10) []
  refine ⟨h, ?_⟩
  rw [h]
  refine le_trans (List.length_filterMap_le _ _) ?_
  rw [List.length_take]
  exact min_le_left _ _

/-- C9: the line passed to the resolver is the max of 1 and the proposed
line, hence at least 1; and the assembly loop never consults the resolver at
a target line below 1, so any two resolvers agreeing on target lines at least
1 produce identical payloads. -/
theorem c9_clamped_line :
    (∀ c : ProposedComment, (1 : Int) ≤ max 1 c.line) ∧
    ∀ (r r' : Line → Int → Option Nat),
      (∀ fp tl, (1 : Int) ≤ tl → r fp tl = r' fp tl) →
      ∀ cs : List ProposedComment,
        build_line_comments_with r cs = build_line_comments_with r' cs := by
  constructor
  · intro c
    exact le_max_left 1 c.line
  · intro r r' hr cs
    unfold build_line_comments_with
    exact List.foldl_ext (processComment r) (processComment r') []
      (fun acc c _ => processComment_congr r r' hr acc c)

/-- Witness for C9: a resolver that is arbitrary below target line 1 and a
resolver defined only from target line 1 on produce the same payload for a
comment whose proposed line is negative. -/
theorem c9_clamped_line_witness :
    build_line_comments_with (fun _ _ => some 3)
        [⟨("a.py").data, -7, ("c").data, []⟩]
      = build_line_comments_with
          (fun _ tl => if (1 : Int) ≤ tl then some 3 else none)
          [⟨("a.py").data, -7, ("c").data, []⟩] :=
  c9_clamped_line.2 (fun _ _ => some 3)
    (fun _ tl => if (1 : Int) ≤ tl then some 3 else none)
    (fun fp tl h => by simp [h]) [⟨("a.py").data, -7, ("c").data, []⟩]

/-- C10: the resolver is deterministic; two invocations on identical argument
triples return identical results. -/
theorem c10_deterministic :
    ∀ (d₁ d₂ fp₁ fp₂ : Line) (t₁ t₂ : Int), d₁ = d₂ → fp₁ = fp₂ → t₁ = t₂ →
      calculate_diff_position d₁ fp₁ t₁ = calculate_diff_position d₂ fp₂ t₂ := by
  intro d₁ d₂ fp₁ fp₂ t₁ t₂ h1 h2 h3
  rw [h1, h2, h3]

/-- Witness for C10: two invocations on the scenario A diff with the same
path and line agree. -/
theorem c10_deterministic_witness :
    calculate_diff_position scenarioA ("src/app.py").data 10
      = calculate_diff_position scenarioA ("src/app.py").data 10 :=
  c10_deterministic scenarioA scenarioA ("src/app.py").data ("src/app.py").data
    10 10 rfl rfl rfl
